import Mathlib

/-! Verification development for the Padelfinder search proxy
(`src/api/index.py`).  The Python source is shallowly embedded: pure
helpers become Lean functions, the effectful orchestration is modelled by
explicit state passing over oracles that describe the outcome of each
network call, and Python exceptions become `Except` values carrying the
exception's message string. -/

namespace Padelfinder

/-! ### Generic string helpers (Python `in`, `startswith`, `strip`, ...) -/

/-- The single-quote character (ASCII 39). -/
def quoteC : Char := Char.ofNat 39

/-- The backslash character (ASCII 92). -/
def backslashC : Char := Char.ofNat 92

/-- Boolean test that the first list is a leading segment of the second. -/
def isPfx : List Char → List Char → Bool
  | [], _ => true
  | _ :: _, [] => false
  | a :: as, b :: bs => a = b && isPfx as bs

/-- Boolean test that `needle` occurs somewhere in `hay` (Python `in`). -/
def occursIn (needle : List Char) : List Char → Bool
  | [] => isPfx needle []
  | c :: cs => isPfx needle (c :: cs) || occursIn needle cs

/-- Python `needle in hay` on strings. -/
def strContains (hay needle : String) : Bool :=
  occursIn needle.toList hay.toList

/-- The tail of `l` just after the first occurrence of `marker`;
`none` when `marker` does not occur. -/
def findAfterL (marker : List Char) : List Char → Option (List Char)
  | [] => if marker = [] then some [] else none
  | c :: cs =>
    if isPfx marker (c :: cs) then some ((c :: cs).drop marker.length)
    else findAfterL marker cs

/-- Python truthiness of an optional string (`None` and `""` are falsy). -/
def truthyStr : Option String → Bool
  | some s => s ≠ ""
  | none => false

/-- Python `a or b or ""` over two optional string fields. -/
def pyOrStr (a b : Option String) : String :=
  if truthyStr a then a.getD "" else if truthyStr b then b.getD "" else ""

/-! ### Tournament items and the web scraper (`fetch_web_ajax`, lines 296-412)

A `TournamentItem` is a provider dict; only the two identity fields are
structured, the remaining fields are abstracted as an opaque payload. -/

structure Item where
  originalId : Option String
  id : Option String
  rest : String
deriving DecidableEq, Repr

/-- Identity key used for deduplication:
`item.get("originalId") or item.get("id") or ""` (line 361/396). -/
def itemKey (it : Item) : String := pyOrStr it.originalId it.id

/-- One AJAX response directive (`cmd` in the directive list): the code
inspects `cmd.get("command")` for `"settings"` (optional fresh theme
token) and `"recherche_tournois_update"` (reported total plus items). -/
inductive Directive where
  | settings (themeToken : Option String)
  | resultsUpdate (nbResults : Nat) (items : List Item)
  | other
deriving DecidableEq, Repr

/-- Mutable scrape loop state: `all_items`, `seen_ids`, `total_from_api`,
`current_theme_token`, plus the list of page numbers actually requested. -/
structure ScrapeState where
  allItems : List Item
  seenIds : List String
  totalFromApi : Nat
  themeToken : String
  pagesRequested : List Nat
deriving DecidableEq, Repr

/-- Per-item deduplication (lines 361-364 and 396-399): an item is stored
only when its identity key is nonempty and unseen. -/
def dedupStep (st : ScrapeState) (it : Item) : ScrapeState :=
  if itemKey it ≠ "" ∧ itemKey it ∉ st.seenIds then
    { st with seenIds := st.seenIds ++ [itemKey it], allItems := st.allItems ++ [it] }
  else st

/-- Page-0 directive processing (lines 354-364): a `settings` directive may
refresh the theme token, a results directive sets `total_from_api` and
feeds its items through deduplication. -/
def processCmd0 (st : ScrapeState) (cmd : Directive) : ScrapeState :=
  match cmd with
  | .settings tok => { st with themeToken := tok.getD st.themeToken }
  | .resultsUpdate nb items => items.foldl dedupStep { st with totalFromApi := nb }
  | .other => st

/-- Directive processing on pages 1.. (lines 391-399): identical to page 0
except that `total_from_api` is not touched. -/
def processCmdN (st : ScrapeState) (cmd : Directive) : ScrapeState :=
  match cmd with
  | .settings tok => { st with themeToken := tok.getD st.themeToken }
  | .resultsUpdate _ items => items.foldl dedupStep st
  | .other => st

/-- The pagination loop (lines 370-409) over the remaining page numbers.
`fetchPage p = none` models the page request (or its JSON decoding)
raising, which breaks the loop keeping the items collected so far.
Before each request the loop breaks when the deduplicated count has
reached the reported total; after a successful page it breaks when the
page contributed no new item. -/
def runPages (fetchPage : Nat → Option (List Directive)) :
    List Nat → ScrapeState → ScrapeState
  | [], st => st
  | p :: rest, st =>
    if st.seenIds.length ≥ st.totalFromApi then st
    else
      let stReq := { st with pagesRequested := st.pagesRequested ++ [p] }
      match fetchPage p with
      | none => stReq
      | some cmds =>
        let st2 := cmds.foldl processCmdN stReq
        if st2.allItems.length = stReq.allItems.length then st2
        else runPages fetchPage rest st2

/-- Outcome of the page-0 POST: a non-2xx status makes
`resp.raise_for_status()` raise (propagating out of the function); an
unparseable body is caught by the surrounding `try` and skipped. -/
inductive Page0Resp where
  | httpError (msg : String)
  | parseFail
  | ok (cmds : List Directive)
deriving Repr

/-- The dict returned by `fetch_web_ajax` (line 412). -/
structure WebResult where
  count : Nat
  items : List Item
  source : String
  total_api : Nat
deriving DecidableEq, Repr

/-- Source tag of the web scraper result. -/
def tenupWebTag : String := "tenup_web"

/-- Runs page 0 then the pagination loop, returning the final scrape
state.  Form-state negotiation happens before page 0 in the source; its
failures propagate out of `fetch_web_ajax` and are modelled at the
orchestrator level, so here the loop starts from the negotiated theme
token. -/
def webScrapeRun (page0 : Page0Resp) (fetchPage : Nat → Option (List Directive))
    (themeToken : String) : Except String ScrapeState :=
  match page0 with
  | .httpError msg => .error msg
  | .parseFail =>
    .ok (runPages fetchPage (List.range' 1 9) ⟨[], [], 0, themeToken, []⟩)
  | .ok cmds =>
    let st1 := cmds.foldl processCmd0 ⟨[], [], 0, themeToken, []⟩
    .ok (runPages fetchPage (List.range' 1 9) st1)

/-- `fetch_web_ajax` (lines 296-412), post-negotiation: returns the
deduplicated items, their count, the fixed source tag and the reported
total. -/
def fetch_web_ajax (page0 : Page0Resp) (fetchPage : Nat → Option (List Directive))
    (themeToken : String) : Except String WebResult :=
  (webScrapeRun page0 fetchPage themeToken).map fun st =>
    ⟨st.allItems.length, st.allItems, tenupWebTag, st.totalFromApi⟩

/-! ### Query fingerprint (`search_tenup`, lines 426-437)

Coordinates are modelled as exact rationals; Python `round(x, 4)` is
round-half-to-even on the scaled value. -/

/-- Python `round` to an integer: round half to even (banker's rounding). -/
def roundHalfEven (x : ℚ) : ℤ :=
  let f : ℤ := ⌊x⌋
  let r : ℚ := x - (f : ℚ)
  if r < 1/2 then f
  else if 1/2 < r then f + 1
  else if f % 2 = 0 then f else f + 1

/-- Python `round(x, 4)`. -/
def round4 (x : ℚ) : ℚ := ((roundHalfEven (x * 10000) : ℤ) : ℚ) / 10000

/-- Drops trailing zero digits. -/
def stripZeroTail (l : List Char) : List Char :=
  (l.reverse.dropWhile (fun c => c = '0')).reverse

/-- Decimal rendering of `round(x, 4)` as Python's f-string renders the
rounded float: integer part, a dot, and the fractional digits with
trailing zeros dropped (at least one digit, so `1.0` not `1.`). -/
def renderRound4 (x : ℚ) : String :=
  let n : ℤ := roundHalfEven (x * 10000)
  let sgn := if n < 0 then "-" else ""
  let m := n.natAbs
  let frac := stripZeroTail
    (List.replicate (4 - (Nat.toDigits 10 (m % 10000)).length) '0' ++
      Nat.toDigits 10 (m % 10000))
  sgn ++ toString (m / 10000) ++ "." ++ (if frac = [] then "0" else String.mk frac)

/-- The inbound search query (`search_tenup` parameters). -/
structure SearchQuery where
  lat : ℚ
  lng : ℚ
  rayon_km : ℤ
  q : String
  date_start : String
  date_end : String
  level : String
  etype : String
deriving DecidableEq, Repr

/-- Literal fragments of the fingerprint, one per sorted `cache_params`
key (keys `de, ds, et, lat, lng, lvl, q, rayon` in Python string order),
with `"|"` separators fused into the following fragment. -/
def keyDe : String := "de:"
def keyDs : String := "|ds:"
def keyEt : String := "|et:"
def keyLat : String := "|lat:"
def keyLng : String := "|lng:"
def keyLvl : String := "|lvl:"
def keyQ : String := "|q:"
def keyRayon : String := "|rayon:"

/-- The cache fingerprint (lines 427-437): coordinates rounded to 4
decimals, all fields joined as `k:v` in sorted key order. -/
def cache_key (query : SearchQuery) : String :=
  keyDe ++ query.date_end ++ keyDs ++ query.date_start ++ keyEt ++ query.etype ++
  keyLat ++ renderRound4 query.lat ++ keyLng ++ renderRound4 query.lng ++
  keyLvl ++ query.level ++ keyQ ++ query.q ++ keyRayon ++ toString query.rayon_km

/-! ### Orchestrator data (`_perform_search`, lines 490-586) -/

/-- The parsed token bundle (`token.json`): only the two fields the
orchestrator reads are structured. -/
structure TokenData where
  access_token : Option String
  refresh_token : Option String
deriving DecidableEq, Repr

/-- Outcome of one `fetch_mobile_api` call: HTTP 401 raises the dedicated
`HTTPException(401)` (line 249), any other failure raises some other
exception, success yields the normalized items. -/
inductive MobileOutcome where
  | ok (items : List Item)
  | unauthorized
  | otherError (msg : String)
deriving DecidableEq, Repr

/-- Observable effectful steps of one orchestrated search, in order. -/
inductive Ev where
  | mobileFetch
  | refreshTok
  | saveToken
  | webFetch
  | headless
deriving DecidableEq, Repr

/-- Oracle for the effectful calls of one `_perform_search` run: what the
credential store returns and how each upstream call would turn out. -/
structure Env where
  tokenData : Option TokenData
  cookieHeader : Option String
  mobileFetch1 : MobileOutcome
  refreshResult : Option TokenData
  mobileFetch2 : MobileOutcome
  webFetch1 : Except String WebResult
  headlessResult : Except String String
  webFetch2 : Except String WebResult
deriving Repr

/-- A raised `HTTPException` (status code and detail string). -/
structure HErr where
  status : Nat
  detail : String
deriving DecidableEq, Repr

/-- The result dict returned to the route: the mobile path carries no
`total_api` field, the web path does. -/
structure SearchResult where
  count : Nat
  items : List Item
  source : String
  total_api : Option Nat
deriving DecidableEq, Repr

/-- Source tag of the mobile-API result. -/
def mobileTag : String := "mobile_api"

/-- Result dict of a successful mobile fetch (lines 509 and 525). -/
def mobileResult (items : List Item) : SearchResult :=
  ⟨items.length, items, mobileTag, none⟩

/-- Lifting of the web scraper dict into the route result. -/
def webToSearch (r : WebResult) : SearchResult :=
  ⟨r.count, r.items, r.source, some r.total_api⟩

/-- Substring the orchestrator greps for in a web-tier exception
(line 549). -/
def queueitRedirNeedle : String := "Queue-it redirection detected"

/-- Detail text of web-tier 500 errors (lines 565-566). -/
def webErrTag : String := "TenUp web error: "

/-- Detail text of the exhaustion 502 error (line 585). -/
def exhaustTag : String := "API mobile indisponible et cookies headless échoués: "

/-- Last-resort branch (lines 568-586): headless cookie refresh then one
web fetch; any failure raises HTTP 502. -/
def lastResort (env : Env) : Except HErr SearchResult × List Ev :=
  match env.headlessResult with
  | .ok _ =>
    match env.webFetch2 with
    | .ok r => (.ok (webToSearch r), [.headless, .webFetch])
    | .error m => (.error ⟨502, exhaustTag ++ m⟩, [.headless, .webFetch])
  | .error m => (.error ⟨502, exhaustTag ++ m⟩, [.headless])

/-- Web tier of `_perform_search` (lines 535-566 falling through to
568-586): with a truthy cookie header, one web fetch; on an exception
whose text contains the Queue-it redirection marker, one headless refresh
and one retried web fetch (failures become HTTP 500); any other exception
becomes HTTP 500 directly.  Without a cookie header, the last resort. -/
def webTier (env : Env) : Except HErr SearchResult × List Ev :=
  if truthyStr env.cookieHeader then
    match env.webFetch1 with
    | .ok r => (.ok (webToSearch r), [.webFetch])
    | .error m =>
      if strContains m queueitRedirNeedle then
        match env.headlessResult with
        | .ok _ =>
          match env.webFetch2 with
          | .ok r => (.ok (webToSearch r), [.webFetch, .headless, .webFetch])
          | .error m2 => (.error ⟨500, webErrTag ++ m2⟩, [.webFetch, .headless, .webFetch])
        | .error m2 => (.error ⟨500, webErrTag ++ m2⟩, [.webFetch, .headless])
      else (.error ⟨500, webErrTag ++ m⟩, [.webFetch])
  else lastResort env

/-- `_perform_search` (lines 490-586).  Mobile tier: requires a stored
bundle with truthy `access_token`; on HTTP 401 with a truthy refresh
token, one refresh + persist + retried fetch; every mobile-tier failure
falls through to the web tier. -/
def perform_search (env : Env) : Except HErr SearchResult × List Ev :=
  match env.tokenData with
  | some td =>
    if truthyStr td.access_token then
      match env.mobileFetch1 with
      | .ok items => (.ok (mobileResult items), [.mobileFetch])
      | .unauthorized =>
        if truthyStr td.refresh_token then
          match env.refreshResult with
          | some _ =>
            match env.mobileFetch2 with
            | .ok items =>
              (.ok (mobileResult items), [.mobileFetch, .refreshTok, .saveToken, .mobileFetch])
            | _ =>
              let wr := webTier env
              (wr.1, [.mobileFetch, .refreshTok, .saveToken, .mobileFetch] ++ wr.2)
          | none =>
            let wr := webTier env
            (wr.1, [.mobileFetch, .refreshTok] ++ wr.2)
        else
          let wr := webTier env
          (wr.1, [.mobileFetch] ++ wr.2)
      | .otherError _ =>
        let wr := webTier env
        (wr.1, [.mobileFetch] ++ wr.2)
    else webTier env
  | none => webTier env

/-! ### Cache layer and the route handler (`search_tenup`, lines 415-463) -/

/-- `INTERNAL_CACHE`: fingerprint ↦ (payload, absolute expiry). -/
abbrev CacheMap := List (String × SearchResult × ℚ)

/-- `CACHE_TTL = 3600` seconds (line 61). -/
def CACHE_TTL : ℚ := 3600

/-- Dictionary lookup. -/
def cacheLookup : CacheMap → String → Option (SearchResult × ℚ)
  | [], _ => none
  | (k, v, e) :: rest, key => if k = key then some (v, e) else cacheLookup rest key

/-- Dictionary `del`. -/
def cacheErase : CacheMap → String → CacheMap
  | [], _ => []
  | (k, v, e) :: rest, key =>
    if k = key then cacheErase rest key else (k, v, e) :: cacheErase rest key

/-- Cache store (line 458): absolute expiry `now + CACHE_TTL`. -/
def cache_put (c : CacheMap) (key : String) (r : SearchResult) (now : ℚ) : CacheMap :=
  (key, r, now + CACHE_TTL) :: cacheErase c key

/-- Cache check (lines 441-447): a fresh entry is returned as-is, an
expired entry is deleted (lazy expiry) and treated as a miss. -/
def cache_get (c : CacheMap) (key : String) (now : ℚ) : Option SearchResult × CacheMap :=
  match cacheLookup c key with
  | some (data, expiry) =>
    if now < expiry then (some data, c) else (none, cacheErase c key)
  | none => (none, c)

/-- Opportunistic eviction (lines 450-452): drop entries already past
expiry. -/
def evictExpired (c : CacheMap) (now : ℚ) : CacheMap :=
  c.filter fun e => !(now > e.2.2)

/-- Detail text the route wraps every escaped exception with (line 463). -/
def internalErrTag : String := "Internal Server Error: "

/-- Python `str(...)` of a FastAPI `HTTPException`: `"status: detail"`. -/
def strHErr (e : HErr) : String := toString e.status ++ ": " ++ e.detail

/-- The route handler `search_tenup` (lines 415-463): cache check, soft
eviction, `_perform_search`, cache store; every exception escaping the
orchestrator (HTTPExceptions included) is re-raised as HTTP 500 with the
stringified cause. -/
def search_tenup (cache : CacheMap) (now : ℚ) (query : SearchQuery) (env : Env) :
    Except HErr SearchResult × CacheMap × List Ev :=
  let key := cache_key query
  match cache_get cache key now with
  | (some data, cache1) => (.ok data, cache1, [])
  | (none, cache1) =>
    let cache2 := if cache1.length > 500 then evictExpired cache1 now else cache1
    match perform_search env with
    | (.ok result, tr) => (.ok result, cache_put cache2 key result now, tr)
    | (.error e, tr) => (.error ⟨500, internalErrTag ++ strHErr e⟩, cache2, tr)

/-! ### Credential store (`load_token_file` lines 73-90,
`load_cookie_header` lines 93-121)

Filesystem and environment are modelled by a record of what each origin
would yield: `none` = absent, `some none` = present but
unreadable/unparseable, `some (some v)` = present with value `v`. -/

structure CredState where
  tokenFile : Option (Option TokenData)
  envToken : Option (Option TokenData)
  envCookie : Option String
  cookieFile : Option (Option String)
  cookieFileAlt : Option (Option String)
deriving Repr

/-- `load_token_file`: the on-disk `token.json` is tried first (the code
comment calls it "Highest priority"); the `TENUP_TOKEN` environment
variable is only consulted when the file is missing or unreadable. -/
def load_token_file (s : CredState) : Option TokenData :=
  match s.tokenFile with
  | some (some t) => some t
  | some none | none =>
    match s.envToken with
    | some (some t) => some t
    | _ => none

/-- Leading tag stripped case-insensitively from cookie values. -/
def cookieTag : String := "cookie:"

/-- `raw.lower().startswith("cookie:")`. -/
def startsCookieTag (s : String) : Bool := isPfx cookieTag.toList s.toLower.toList

/-- `raw.split(":", 1)[1]`. -/
def afterFirstColon (s : String) : String :=
  String.mk (((s.toList).dropWhile (fun c => c ≠ ':')).drop 1)

/-- Processing of the `TENUP_COOKIE` environment value (lines 95-99). -/
def processEnvCookie (c : String) : String :=
  let raw := c.trim
  if startsCookieTag raw then (afterFirstColon raw).trim else raw

/-- Newline separator used by `splitlines`. -/
def lineSep : String := "\n"

/-- Joiner used when collapsing multi-line cookie files. -/
def semiSep : String := "; "

/-- `"; ".join(part.strip() for part in raw.splitlines() if part.strip())`. -/
def collapseCookieLines (raw : String) : String :=
  String.intercalate semiSep (((raw.splitOn lineSep).map String.trim).filter (fun p => p ≠ ""))

/-- Processing of an on-disk cookie file (lines 102-108 / 113-118). -/
def processFileCookie (content : String) : String :=
  let raw := content.trim
  let raw2 := if startsCookieTag raw then (afterFirstColon raw).trim else raw
  collapseCookieLines raw2

/-- File fallback of `load_cookie_header`: `cookie.txt` first (a read
failure returns `None` without trying the alternate file), then
`cookies.txt`. -/
def loadCookieFiles (s : CredState) : Option String :=
  match s.cookieFile with
  | some (some content) => some (processFileCookie content)
  | some none => none
  | none =>
    match s.cookieFileAlt with
    | some (some content) => some (processFileCookie content)
    | some none => none
    | none => none

/-- `load_cookie_header`: the `TENUP_COOKIE` environment variable wins
when truthy, then the persisted files. -/
def load_cookie_header (s : CredState) : Option String :=
  match s.envCookie with
  | some c => if c ≠ "" then some (processEnvCookie c) else loadCookieFiles s
  | none => loadCookieFiles s

/-! ### Form-state negotiator (`get_form_state`, lines 256-293) -/

/-- `TENUP_BASE` (line 35). -/
def TENUP_BASE : String := "https://tenup.fft.fr"

/-- `SEARCH_PATH` (line 36). -/
def SEARCH_PATH : String := "/recherche/tournois"

/-- Host marker of the anti-bot queuing service. -/
def queueitHost : String := "queue-it.net"

/-- Exception text for a bot-wall redirect (line 269). -/
def queueRedirMsg : String := "Queue-it redirection detected; cookies invalid or expired."

/-- Exception text for a bot-wall landing page (line 275). -/
def queuePageMsg : String := "Queue-it page detected; cookies invalid or expired."

/-- Leading text of the negotiation-failure exception (line 293). -/
def inaccessibleTag : String := "TenUp inaccessible. Snippet: "

/-- Snippet used when no HTML was ever received. -/
def noHtmlMsg : String := "No HTML"

/-- First guard substring for the client-side redirect step (line 277). -/
def decodeMarker : String := "decodeURIComponent"

/-- Second guard substring for the client-side redirect step (line 277). -/
def cookietestMarker : String := "cookietest"

/-- Scheme test used by the (simplified) URL join. -/
def httpPfxStr : String := "http"

/-- `urljoin(TENUP_BASE, loc)`, simplified to absolute-URL/absolute-path
joining (the only shapes the negotiator produces). -/
def urljoin (base loc : String) : String :=
  if isPfx httpPfxStr.toList loc.toList then loc else base ++ loc

/-- Hexadecimal digit value. -/
def hexVal (c : Char) : Option Nat :=
  if '0' ≤ c ∧ c ≤ '9' then some (c.toNat - 48)
  else if 'a' ≤ c ∧ c ≤ 'f' then some (c.toNat - 87)
  else if 'A' ≤ c ∧ c ≤ 'F' then some (c.toNat - 55)
  else none

/-- `urllib.parse.unquote` restricted to single-byte escapes: each valid
`%XY` is decoded, everything else passes through. -/
def unquoteL : List Char → List Char
  | [] => []
  | '%' :: a :: b :: rest2 =>
    match hexVal a, hexVal b with
    | some x, some y => Char.ofNat (16 * x + y) :: unquoteL rest2
    | _, _ => '%' :: unquoteL (a :: b :: rest2)
  | c :: rest => c :: unquoteL rest

/-- Literal text the redirect regex requires before the capture: the raw
pattern `decodeURIComponent\\('([^']+)'\\)` escapes the doubled
backslashes to literal backslashes, so the parentheses are group
delimiters and the regex matches `decodeURIComponent` followed by a
literal backslash and a quote. -/
def redirMarkerL : List Char :=
  ("decodeURIComponent" ++ String.mk [backslashC, quoteC]).toList

/-- Attempt to match the redirect regex anchored at the head of `l`;
on success returns group 1, which spans `'X'\` (quote, capture body,
quote, backslash). -/
def tryRedirAt (l : List Char) : Option String :=
  if isPfx redirMarkerL l then
    let rest := l.drop redirMarkerL.length
    let x := rest.takeWhile (fun c => c ≠ quoteC)
    let rest2 := rest.drop x.length
    if x ≠ [] ∧ isPfx [quoteC, backslashC] rest2 then
      some (String.mk (quoteC :: (x ++ [quoteC, backslashC])))
    else none
  else none

/-- `re.search` of the redirect pattern: first match over all start
positions. -/
def findRedirL : List Char → Option String
  | [] => none
  | c :: cs =>
    match tryRedirAt (c :: cs) with
    | some g => some g
    | none => findRedirL cs

/-- Group 1 of `re.search(r"decodeURIComponent\\('([^']+)'\\)", html)`. -/
def findRedir (html : String) : Option String := findRedirL html.toList

/-- Marker of the theme-token regex `"theme_token":"([^"]+)"`. -/
def themeTokenMarker : String := "\"theme_token\":\""

/-- Marker of the form-build-id regex. -/
def formBuildMarker : String := "name=\"form_build_id\""

/-- `value="` fragment of the form-build-id regex. -/
def valueMarker : String := "value=\""

/-- The double-quote character. -/
def dquoteC : Char := '"'

/-- Extraction for `"theme_token":"([^"]+)"`. -/
def extractThemeToken (html : String) : Option String :=
  match findAfterL themeTokenMarker.toList html.toList with
  | none => none
  | some rest =>
    let cap := rest.takeWhile (fun c => c ≠ dquoteC)
    if cap = [] then none else some (String.mk cap)

/-- Extraction for `name="form_build_id"[^>]*value="([^"]+)"`. -/
def extractFormBuildId (html : String) : Option String :=
  match findAfterL formBuildMarker.toList html.toList with
  | none => none
  | some rest =>
    let window := rest.takeWhile (fun c => c ≠ '>')
    match findAfterL valueMarker.toList window with
    | none => none
    | some rest2 =>
      let cap := rest2.takeWhile (fun c => c ≠ dquoteC)
      if cap = [] then none else some (String.mk cap)

/-- One HTTP response observed by the negotiator: either a 3xx redirect
(location header plus body) or a resolved page. -/
inductive PageResp where
  | redirect (location : String) (body : String)
  | page (currentUrl : String) (html : String)
deriving Repr

/-- Negotiator session state: current URL, whether the `cookietest`
confirmation cookie has been set, and the last response body. -/
structure NegoState where
  url : String
  cookieSet : Bool
  lastHtml : String
deriving DecidableEq, Repr

/-- The 5-iteration negotiation loop (lines 261-293), driven by an oracle
from (iteration, url) to the response. -/
def get_form_state_loop (fetch : Nat → String → PageResp) :
    Nat → Nat → NegoState → Except String (String × String) × NegoState
  | 0, _, st =>
    (.error (inaccessibleTag ++ (if st.lastHtml = "" then noHtmlMsg else st.lastHtml.take 300)), st)
  | fuel + 1, i, st =>
    match fetch i st.url with
    | .redirect loc body =>
      let st1 := { st with lastHtml := body }
      if strContains loc queueitHost then (.error queueRedirMsg, st1)
      else get_form_state_loop fetch fuel (i + 1) { st1 with url := urljoin TENUP_BASE loc }
    | .page curUrl html =>
      let st1 := { st with lastHtml := html }
      if strContains curUrl queueitHost then (.error queuePageMsg, st1)
      else
        match (if strContains html decodeMarker && strContains html cookietestMarker
               then findRedir html else none) with
        | some g =>
          get_form_state_loop fetch fuel (i + 1)
            { st1 with url := urljoin TENUP_BASE (String.mk (unquoteL g.toList)),
                       cookieSet := true }
        | none =>
          match extractFormBuildId html, extractThemeToken html with
          | some a, some b => (.ok (a, b), st1)
          | _, _ => get_form_state_loop fetch fuel (i + 1) st1

/-- `get_form_state` (lines 256-293): up to 5 iterations starting from
the search page; on exhaustion raises the diagnostic snippet error. -/
def get_form_state (fetch : Nat → String → PageResp) :
    Except String (String × String) × NegoState :=
  get_form_state_loop fetch 5 0 ⟨TENUP_BASE ++ SEARCH_PATH, false, ""⟩

/-! ### Auxiliary predicates used by the theorems -/

/-- Whether a directive is the results-update command. -/
def isResultsUpdate : Directive → Bool
  | .resultsUpdate _ _ => true
  | _ => false

/-- Invariant of the scrape state: stored item keys are pairwise distinct,
`seen_ids` holds exactly those keys, and the empty key is never recorded. -/
def KeyInv (st : ScrapeState) : Prop :=
  (st.allItems.map itemKey).Nodup ∧
  (∀ k, k ∈ st.seenIds ↔ k ∈ st.allItems.map itemKey) ∧
  "" ∉ st.seenIds

/-! ### Concrete inputs used by the theorems -/

/-- A single-quote string. -/
def sqS : String := String.mk [quoteC]

/-- A single-backslash string. -/
def bsS : String := String.mk [backslashC]

/-- A theme token. -/
def tkC4 : String := "tk"

/-- Page oracle where every page request fails. -/
def fpNone : Nat → Option (List Directive) := fun _ => none

/-- Ten items with distinct `originalId`s. -/
def itemsC4 : List Item :=
  (List.range 10).map fun n => (⟨some (toString n), none, ""⟩ : Item)

/-- An item that would extend the collection if a further page were read. -/
def freshC4 : Item := ⟨some ("fresh"), none, ""⟩

/-- Page 0 of the pagination-termination scenario: reported total 25,
ten items delivered. -/
def p0C4 : Page0Resp := .ok [.resultsUpdate 25 itemsC4]

/-- Page oracle of the scenario: page 1 repeats the ten items (zero new),
later pages would deliver a fresh item (showing they are not visited). -/
def fpC4 : Nat → Option (List Directive) := fun p =>
  if p = 1 then some [.resultsUpdate 25 itemsC4] else some [.resultsUpdate 25 [freshC4]]

/-- An item bearing neither `originalId` nor `id`. -/
def itemNoIdC5 : Item := ⟨none, none, "ghost"⟩

/-- Page 0 delivering only the keyless item, total 1. -/
def p0C5 : Page0Resp := .ok [.resultsUpdate 1 [itemNoIdC5]]

/-- Base query shared by the concrete scenarios. -/
def qBase : SearchQuery := ⟨0, 0, 100, "", "2026-01-15", "2026-04-15", "", ""⟩

/-- Query with latitude 1.00001. -/
def qC6a : SearchQuery := { qBase with lat := 100001/100000, lng := 2, q := "Paris" }

/-- Same query with latitude 1.00009: identical through the fourth
decimal place, differing only at the fifth. -/
def qC6b : SearchQuery := { qC6a with lat := 100009/100000 }

/-- Query with latitude 1.00012 (witness pair, first member). -/
def qC6w1 : SearchQuery := { qBase with lat := 100012/100000 }

/-- Query with latitude 1.000121, which rounds to the same 4 decimals. -/
def qC6w2 : SearchQuery := { qBase with lat := 1000121/1000000 }

/-- A sample cached payload. -/
def rC7 : SearchResult := ⟨1, [⟨some ("a"), none, "x"⟩], mobileTag, none⟩

/-- An empty successful web result. -/
def emptyWeb : WebResult := ⟨0, [], tenupWebTag, 0⟩

/-- A normalized tournament item. -/
def itW : Item := ⟨some ("a"), none, "x"⟩

/-- Credential bundle whose mobile fetch is rejected with 401. -/
def tdC1 : TokenData := ⟨some ("at"), some ("rt")⟩

/-- Refreshed bundle returned by the token exchange. -/
def tdC1b : TokenData := ⟨some ("at2"), some ("rt2")⟩

/-- Oracle for the refresh-retry success scenario: stored bundle, first
mobile fetch 401, refresh succeeds, retried fetch succeeds. -/
def envC1 : Env :=
  ⟨some tdC1, none, .unauthorized, some tdC1b, .ok [itW],
   .error (""), .error (""), .error ("")⟩

/-- Oracle where the web fetch raises the bot-wall-page error while a
headless refresh and a retried fetch would both succeed. -/
def envC2 : Env :=
  ⟨none, some ("c"), .otherError (""), none, .otherError (""),
   .error queuePageMsg, .ok ("hdr"), .ok emptyWeb⟩

/-- Same oracle but with the bot-wall-redirect error. -/
def envC2w : Env := { envC2 with webFetch1 := .error queueRedirMsg }

/-- Oracle for total exhaustion: no token bundle, no cookie header, and
the headless refresh fails. -/
def envC3 : Env :=
  ⟨none, none, .otherError (""), none, .otherError (""),
   .error (""), .error ("browser launch failed"), .error ("")⟩

/-- Oracle reaching the web tier whose fetch returns the empty parsed
result. -/
def envC10 : Env :=
  ⟨none, some ("ck"), .otherError (""), none, .otherError (""),
   .ok emptyWeb, .error (""), .error ("")⟩

/-- Token bundle persisted on disk. -/
def tdFile : TokenData := ⟨some ("fa"), some ("fr")⟩

/-- Token bundle set in the environment override. -/
def tdEnv : TokenData := ⟨some ("ea"), some ("er")⟩

/-- Credential state where both the token file and the environment
override are present and differ. -/
def csC8 : CredState := ⟨some (some tdFile), some (some tdEnv), none, none, none⟩

/-- Credential state with a truthy cookie override and a cookie file. -/
def csC8b : CredState := ⟨none, none, some ("envck=1"), some (some ("fileck=1")), none⟩

/-- Anti-bot confirmation page: plain `decodeURIComponent('<encoded>')`
redirect script next to the `cookietest` marker and no form tokens. -/
def c9Html : String :=
  "cookietest=1; decodeURIComponent(" ++ sqS ++ "%2Fx" ++ sqS ++ ")"

/-- Fetch oracle always serving the confirmation page. -/
def c9Fetch : Nat → String → PageResp := fun _ _ => .page (TENUP_BASE ++ SEARCH_PATH) c9Html

/-- Text that the doubled-backslash regex does match: a literal backslash
before the quotes and after the closing quote. -/
def bsHtml : String :=
  "xx decodeURIComponent" ++ bsS ++ sqS ++ "%2Fok" ++ sqS ++ bsS ++ " yy cookietest"

/-- A scrape state whose deduplicated count already covers the reported
total. -/
def stStop : ScrapeState := ⟨[], [], 0, tkC4, []⟩

/-- A scrape state still short of the reported total. -/
def stShort : ScrapeState := ⟨[], [], 1, tkC4, []⟩

/-! ### Helper lemmas -/

theorem dedupStep_pages (st : ScrapeState) (it : Item) :
    (dedupStep st it).pagesRequested = st.pagesRequested := by
  unfold dedupStep
  split <;> rfl

theorem foldl_dedup_pages : ∀ (items : List Item) (st : ScrapeState),
    (items.foldl dedupStep st).pagesRequested = st.pagesRequested := by
  intro items
  induction items with
  | nil => intro st; rfl
  | cons it rest ih =>
    intro st
    rw [List.foldl_cons, ih, dedupStep_pages]

theorem processCmdN_pages (st : ScrapeState) (cmd : Directive) :
    (processCmdN st cmd).pagesRequested = st.pagesRequested := by
  cases cmd with
  | settings tok => rfl
  | resultsUpdate nb items => exact foldl_dedup_pages items st
  | other => rfl

theorem foldl_processCmdN_pages : ∀ (cmds : List Directive) (st : ScrapeState),
    (cmds.foldl processCmdN st).pagesRequested = st.pagesRequested := by
  intro cmds
  induction cmds with
  | nil => intro st; rfl
  | cons c rest ih =>
    intro st
    rw [List.foldl_cons, ih, processCmdN_pages]

theorem processCmd0_pages (st : ScrapeState) (cmd : Directive) :
    (processCmd0 st cmd).pagesRequested = st.pagesRequested := by
  cases cmd with
  | settings tok => rfl
  | resultsUpdate nb items => exact foldl_dedup_pages items { st with totalFromApi := nb }
  | other => rfl

theorem foldl_processCmd0_pages : ∀ (cmds : List Directive) (st : ScrapeState),
    (cmds.foldl processCmd0 st).pagesRequested = st.pagesRequested := by
  intro cmds
  induction cmds with
  | nil => intro st; rfl
  | cons c rest ih =>
    intro st
    rw [List.foldl_cons, ih, processCmd0_pages]

theorem runPages_stop (fp : Nat → Option (List Directive)) (l : List Nat)
    (st : ScrapeState) (h : st.seenIds.length ≥ st.totalFromApi) :
    runPages fp l st = st := by
  cases l with
  | nil => rfl
  | cons p rest =>
    simp only [runPages]
    rw [if_pos h]

theorem runPages_pages_mem (fp : Nat → Option (List Directive)) :
    ∀ (l : List Nat) (st : ScrapeState) (p : Nat),
    p ∈ (runPages fp l st).pagesRequested → p ∈ st.pagesRequested ∨ p ∈ l := by
  intro l
  induction l with
  | nil => intro st p h; exact Or.inl h
  | cons hd tl ih =>
    intro st p h
    simp only [runPages] at h
    by_cases hstop : st.seenIds.length ≥ st.totalFromApi
    · rw [if_pos hstop] at h
      exact Or.inl h
    · rw [if_neg hstop] at h
      cases hfp : fp hd with
      | none =>
        simp only [hfp] at h
        rcases List.mem_append.mp h with h1 | h1
        · exact Or.inl h1
        · rw [List.mem_singleton] at h1
          subst h1
          exact Or.inr (List.mem_cons_self _ _)
      | some cmds =>
        simp only [hfp] at h
        have hp2 : (cmds.foldl processCmdN
            { st with pagesRequested := st.pagesRequested ++ [hd] }).pagesRequested
            = st.pagesRequested ++ [hd] := foldl_processCmdN_pages cmds _
        split at h
        · rw [hp2] at h
          rcases List.mem_append.mp h with h1 | h1
          · exact Or.inl h1
          · rw [List.mem_singleton] at h1
            subst h1
            exact Or.inr (List.mem_cons_self _ _)
        · rcases ih _ p h with h1 | h1
          · rw [hp2] at h1
            rcases List.mem_append.mp h1 with h2 | h2
            · exact Or.inl h2
            · rw [List.mem_singleton] at h2
              subst h2
              exact Or.inr (List.mem_cons_self _ _)
          · exact Or.inr (List.mem_cons_of_mem _ h1)

theorem cacheLookup_cacheErase : ∀ (c : CacheMap) (k : String),
    cacheLookup (cacheErase c k) k = none := by
  intro c k
  induction c with
  | nil => rfl
  | cons e rest ih =>
    obtain ⟨k1, v1, e1⟩ := e
    simp only [cacheErase]
    by_cases h : k1 = k
    · rw [if_pos h]
      exact ih
    · rw [if_neg h]
      simp only [cacheLookup]
      rw [if_neg h]
      exact ih

theorem cache_get_of_lookup_none (c : CacheMap) (k : String) (now : ℚ)
    (h : cacheLookup c k = none) : cache_get c k now = (none, c) := by
  unfold cache_get
  rw [h]

theorem cacheLookup_cache_put (c : CacheMap) (k : String) (r : SearchResult) (now : ℚ) :
    cacheLookup (cache_put c k r now) k = some (r, now + CACHE_TTL) := by
  unfold cache_put cacheLookup
  rw [if_pos rfl]

theorem keyInv_dedupStep (st : ScrapeState) (it : Item) (h : KeyInv st) :
    KeyInv (dedupStep st it) := by
  obtain ⟨hnd, hiff, hne⟩ := h
  unfold dedupStep
  by_cases hc : itemKey it ≠ "" ∧ itemKey it ∉ st.seenIds
  · rw [if_pos hc]
    obtain ⟨hk, hmem⟩ := hc
    refine ⟨?_, ?_, ?_⟩
    · rw [List.map_append]
      refine List.Nodup.append hnd (List.nodup_singleton _) ?_
      intro a ha hb
      rw [List.map_singleton, List.mem_singleton] at hb
      subst hb
      exact hmem ((hiff _).mpr ha)
    · intro k
      rw [List.map_append, List.map_singleton]
      simp only [List.mem_append, List.mem_singleton]
      exact or_congr (hiff k) Iff.rfl
    · simp only [List.mem_append, List.mem_singleton]
      rintro (h1 | h1)
      · exact hne h1
      · exact hk h1.symm
  · rw [if_neg hc]
    exact ⟨hnd, hiff, hne⟩

theorem keyInv_foldl_dedup : ∀ (items : List Item) (st : ScrapeState),
    KeyInv st → KeyInv (items.foldl dedupStep st) := by
  intro items
  induction items with
  | nil => intro st h; exact h
  | cons it rest ih =>
    intro st h
    rw [List.foldl_cons]
    exact ih _ (keyInv_dedupStep st it h)

theorem keyInv_processCmd0 (st : ScrapeState) (cmd : Directive) (h : KeyInv st) :
    KeyInv (processCmd0 st cmd) := by
  cases cmd with
  | settings tok => exact h
  | resultsUpdate nb items => exact keyInv_foldl_dedup items { st with totalFromApi := nb } h
  | other => exact h

theorem keyInv_processCmdN (st : ScrapeState) (cmd : Directive) (h : KeyInv st) :
    KeyInv (processCmdN st cmd) := by
  cases cmd with
  | settings tok => exact h
  | resultsUpdate nb items => exact keyInv_foldl_dedup items st h
  | other => exact h

theorem keyInv_foldl_processCmd0 : ∀ (cmds : List Directive) (st : ScrapeState),
    KeyInv st → KeyInv (cmds.foldl processCmd0 st) := by
  intro cmds
  induction cmds with
  | nil => intro st h; exact h
  | cons c rest ih =>
    intro st h
    rw [List.foldl_cons]
    exact ih _ (keyInv_processCmd0 st c h)

theorem keyInv_foldl_processCmdN : ∀ (cmds : List Directive) (st : ScrapeState),
    KeyInv st → KeyInv (cmds.foldl processCmdN st) := by
  intro cmds
  induction cmds with
  | nil => intro st h; exact h
  | cons c rest ih =>
    intro st h
    rw [List.foldl_cons]
    exact ih _ (keyInv_processCmdN st c h)

theorem keyInv_runPages (fp : Nat → Option (List Directive)) :
    ∀ (l : List Nat) (st : ScrapeState), KeyInv st → KeyInv (runPages fp l st) := by
  intro l
  induction l with
  | nil => intro st h; exact h
  | cons p rest ih =>
    intro st h
    simp only [runPages]
    split
    · exact h
    · cases hfp : fp p with
      | none => simp only [hfp]; exact h
      | some cmds =>
        simp only [hfp]
        have h2 : KeyInv (cmds.foldl processCmdN
            { st with pagesRequested := st.pagesRequested ++ [p] }) :=
          keyInv_foldl_processCmdN cmds _ h
        split
        · exact h2
        · exact ih _ h2

theorem keyInv_start (tk : String) : KeyInv ⟨[], [], 0, tk, []⟩ := by
  refine ⟨List.nodup_nil, fun k => ?_, ?_⟩
  · simp
  · simp

theorem keyInv_webScrapeRun (p0 : Page0Resp) (fp : Nat → Option (List Directive))
    (tk : String) (st : ScrapeState) (h : webScrapeRun p0 fp tk = .ok st) : KeyInv st := by
  cases p0 with
  | httpError msg => exact absurd h (by simp [webScrapeRun])
  | parseFail =>
    simp only [webScrapeRun, Except.ok.injEq] at h
    rw [← h]
    exact keyInv_runPages fp _ _ (keyInv_start tk)
  | ok cmds =>
    simp only [webScrapeRun, Except.ok.injEq] at h
    rw [← h]
    exact keyInv_runPages fp _ _ (keyInv_foldl_processCmd0 cmds _ (keyInv_start tk))

theorem foldl_processCmd0_noUpdate : ∀ (cmds : List Directive) (st : ScrapeState),
    (∀ c ∈ cmds, isResultsUpdate c = false) →
    (cmds.foldl processCmd0 st).allItems = st.allItems ∧
    (cmds.foldl processCmd0 st).seenIds = st.seenIds ∧
    (cmds.foldl processCmd0 st).totalFromApi = st.totalFromApi := by
  intro cmds
  induction cmds with
  | nil => intro st _; exact ⟨rfl, rfl, rfl⟩
  | cons c rest ih =>
    intro st h
    have hrest : ∀ d ∈ rest, isResultsUpdate d = false :=
      fun d hd => h d (List.mem_cons_of_mem _ hd)
    rw [List.foldl_cons]
    cases c with
    | settings tok => exact ih _ hrest
    | resultsUpdate nb items =>
      have hc := h _ (List.mem_cons_self _ _)
      simp [isResultsUpdate] at hc
    | other => exact ih _ hrest

theorem webTier_events (e : Env) :
    Ev.mobileFetch ∉ (webTier e).2 ∧ Ev.refreshTok ∉ (webTier e).2 ∧
    Ev.saveToken ∉ (webTier e).2 := by
  unfold webTier lastResort
  by_cases hc : truthyStr e.cookieHeader = true
  · simp only [hc, if_true]
    cases e.webFetch1 with
    | ok r => refine ⟨by simp, by simp, by simp⟩
    | error m =>
      by_cases hs : strContains m queueitRedirNeedle = true
      · simp only [hs, if_true]
        cases e.headlessResult with
        | ok h2 =>
          cases e.webFetch2 with
          | ok r2 => refine ⟨by simp, by simp, by simp⟩
          | error m2 => refine ⟨by simp, by simp, by simp⟩
        | error m2 => refine ⟨by simp, by simp, by simp⟩
      · simp only [hs, if_false]
        refine ⟨by simp, by simp, by simp⟩
  · simp only [hc, if_false]
    cases e.headlessResult with
    | ok h2 =>
      cases e.webFetch2 with
      | ok r2 => refine ⟨by simp, by simp, by simp⟩
      | error m2 => refine ⟨by simp, by simp, by simp⟩
    | error m2 => refine ⟨by simp, by simp, by simp⟩

theorem floorA_lat : ⌊qC6a.lat * 10000⌋ = 10000 := by
  rw [Int.floor_eq_iff]
  constructor <;> norm_num [qC6a, qBase]

theorem rheA_lat : roundHalfEven (qC6a.lat * 10000) = 10000 := by
  simp only [roundHalfEven, floorA_lat]
  rw [if_pos]
  norm_num [qC6a, qBase]

theorem rheA_lng : roundHalfEven (qC6a.lng * 10000) = 20000 := by
  have hf : ⌊qC6a.lng * 10000⌋ = 20000 := by
    rw [Int.floor_eq_iff]
    constructor <;> norm_num [qC6a, qBase]
  simp only [roundHalfEven, hf]
  rw [if_pos]
  norm_num [qC6a, qBase]

theorem floorB_lat : ⌊qC6b.lat * 10000⌋ = 10000 := by
  rw [Int.floor_eq_iff]
  constructor <;> norm_num [qC6b, qC6a, qBase]

theorem rheB_lat : roundHalfEven (qC6b.lat * 10000) = 10001 := by
  simp only [roundHalfEven, floorB_lat]
  rw [if_neg, if_pos] <;> norm_num [qC6b, qC6a, qBase]

theorem rheB_lng : roundHalfEven (qC6b.lng * 10000) = 20000 := by
  have hf : ⌊qC6b.lng * 10000⌋ = 20000 := by
    rw [Int.floor_eq_iff]
    constructor <;> norm_num [qC6b, qC6a, qBase]
  simp only [roundHalfEven, hf]
  rw [if_pos]
  norm_num [qC6b, qC6a, qBase]

theorem keyA_lit : cache_key qC6a
    = "de:2026-04-15|ds:2026-01-15|et:|lat:1.0|lng:2.0|lvl:|q:Paris|rayon:100" := by
  simp only [cache_key, renderRound4, rheA_lat, rheA_lng]
  rfl

theorem keyB_lit : cache_key qC6b
    = "de:2026-04-15|ds:2026-01-15|et:|lat:1.0001|lng:2.0|lvl:|q:Paris|rayon:100" := by
  simp only [cache_key, renderRound4, rheB_lat, rheB_lng]
  rfl

theorem round4_inj_aux (x y : ℚ) (h : round4 x = round4 y) :
    roundHalfEven (x * 10000) = roundHalfEven (y * 10000) := by
  unfold round4 at h
  field_simp at h
  exact_mod_cast h

/-! ### Claim theorems -/

/-- C6 (counterexample): the queries `qC6a` and `qC6b` differ only in the
latitude, and only beyond the fourth decimal place (1.00001 vs 1.00009:
the truncations to four decimals, witnessed by the floors of the scaled
values, agree), yet their cache fingerprints differ, because rounding to
4 decimals sends them to 1.0 and 1.0001 respectively. -/
theorem fingerprint_fifth_decimal_mismatch :
    qC6a.lat ≠ qC6b.lat ∧
    ⌊qC6a.lat * 10000⌋ = ⌊qC6b.lat * 10000⌋ ∧
    qC6a.lng = qC6b.lng ∧ qC6a.rayon_km = qC6b.rayon_km ∧ qC6a.q = qC6b.q ∧
    qC6a.date_start = qC6b.date_start ∧ qC6a.date_end = qC6b.date_end ∧
    qC6a.level = qC6b.level ∧ qC6a.etype = qC6b.etype ∧
    cache_key qC6a ≠ cache_key qC6b := by
  refine ⟨by norm_num [qC6a, qC6b, qBase], ?_, rfl, rfl, rfl, rfl, rfl, rfl, rfl, ?_⟩
  · rw [floorA_lat, floorB_lat]
  · rw [keyA_lit, keyB_lit]
    decide

/-- C6 (amended): two queries whose normalized fields coincide — equal
coordinates after rounding to 4 decimals and equal remaining fields —
map to the same cache fingerprint.  (As stated, the claim fails: agreeing
through the fourth decimal place does not force equal roundings, see the
counterexample.) -/
theorem fingerprint_of_normalized_fields (q1 q2 : SearchQuery)
    (hlat : round4 q1.lat = round4 q2.lat) (hlng : round4 q1.lng = round4 q2.lng)
    (hr : q1.rayon_km = q2.rayon_km) (hq : q1.q = q2.q)
    (hds : q1.date_start = q2.date_start) (hde : q1.date_end = q2.date_end)
    (hlvl : q1.level = q2.level) (het : q1.etype = q2.etype) :
    cache_key q1 = cache_key q2 := by
  simp only [cache_key, renderRound4,
    round4_inj_aux _ _ hlat, round4_inj_aux _ _ hlng, hr, hq, hds, hde, hlvl, het]

theorem rheW1_lat : roundHalfEven (qC6w1.lat * 10000) = 10001 := by
  have hf : ⌊qC6w1.lat * 10000⌋ = 10001 := by
    rw [Int.floor_eq_iff]
    constructor <;> norm_num [qC6w1, qBase]
  simp only [roundHalfEven, hf]
  rw [if_pos]
  norm_num [qC6w1, qBase]

theorem rheW2_lat : roundHalfEven (qC6w2.lat * 10000) = 10001 := by
  have hf : ⌊qC6w2.lat * 10000⌋ = 10001 := by
    rw [Int.floor_eq_iff]
    constructor <;> norm_num [qC6w2, qBase]
  simp only [roundHalfEven, hf]
  rw [if_pos]
  norm_num [qC6w2, qBase]

theorem w6_hlat : round4 qC6w1.lat = round4 qC6w2.lat := by
  unfold round4
  rw [rheW1_lat, rheW2_lat]

/-- C6 witness: the amended congruence applied to the concrete pair
1.00012 / 1.000121, which round to the same 4 decimals. -/
theorem fingerprint_of_normalized_fields_witness :
    cache_key qC6w1 = cache_key qC6w2 :=
  fingerprint_of_normalized_fields qC6w1 qC6w2 w6_hlat rfl rfl rfl rfl rfl rfl rfl

/-- C7: a cache `put` followed by a `get` strictly within the 3600-second
TTL returns the stored payload with the cache unchanged; once the TTL has
elapsed, the `get` reports a miss and the entry is gone from the returned
cache (lazy expiry). -/
theorem cache_put_get_ttl (c : CacheMap) (k : String) (r : SearchResult) (t0 t : ℚ) :
    (t < t0 + CACHE_TTL → cache_get (cache_put c k r t0) k t = (some r, cache_put c k r t0)) ∧
    (t0 + CACHE_TTL ≤ t →
      (cache_get (cache_put c k r t0) k t).1 = none ∧
      cacheLookup (cache_get (cache_put c k r t0) k t).2 k = none) := by
  constructor
  · intro h
    unfold cache_get
    simp only [cacheLookup_cache_put]
    rw [if_pos h]
  · intro h
    have hnl : ¬ t < t0 + CACHE_TTL := not_lt.mpr h
    unfold cache_get
    simp only [cacheLookup_cache_put]
    rw [if_neg hnl]
    exact ⟨rfl, cacheLookup_cacheErase _ _⟩

theorem qlt_ttl_100 : (100 : ℚ) < 0 + CACHE_TTL := by norm_num [CACHE_TTL]

theorem qle_ttl_3600 : (0 : ℚ) + CACHE_TTL ≤ 3600 := by norm_num [CACHE_TTL]

/-- C7 witness: the TTL theorem at a concrete entry, read at 100 seconds
(fresh) and at 3600 seconds (expired and removed). -/
theorem cache_put_get_ttl_witness :
    cache_get (cache_put [] (cache_key qBase) rC7 0) (cache_key qBase) 100
      = (some rC7, cache_put [] (cache_key qBase) rC7 0) ∧
    (cache_get (cache_put [] (cache_key qBase) rC7 0) (cache_key qBase) 3600).1 = none ∧
    cacheLookup (cache_get (cache_put [] (cache_key qBase) rC7 0) (cache_key qBase) 3600).2
      (cache_key qBase) = none :=
  ⟨(cache_put_get_ttl [] (cache_key qBase) rC7 0 100).1 qlt_ttl_100,
   (cache_put_get_ttl [] (cache_key qBase) rC7 0 3600).2 qle_ttl_3600⟩

/-- C4: pagination after page 0 submits at most pages 1 through 9 (hard
cap of 10 pages total); before each request the loop stops once the
deduplicated count has reached the reported total, it stops after a page
yielding zero new items, and a failing page request still returns the
items already collected; in the concrete scenario (reported total 25,
page 0 delivers 10 items, page 1 repeats them) the run stops after page
1 returning count 10 with total_api 25. -/
theorem pagination_cap_and_stop :
    (List.range' 1 9 = [1, 2, 3, 4, 5, 6, 7, 8, 9]) ∧
    (∀ p0 fp tk st, webScrapeRun p0 fp tk = .ok st →
      ∀ p, p ∈ st.pagesRequested → p ∈ List.range' 1 9) ∧
    (∀ fp (l : List Nat) (st : ScrapeState), st.seenIds.length ≥ st.totalFromApi →
      runPages fp l st = st) ∧
    (∀ fp p rest (st : ScrapeState), ¬ st.seenIds.length ≥ st.totalFromApi → fp p = none →
      runPages fp (p :: rest) st = { st with pagesRequested := st.pagesRequested ++ [p] }) ∧
    (∀ fp p rest (st : ScrapeState) cmds, ¬ st.seenIds.length ≥ st.totalFromApi →
      fp p = some cmds →
      (cmds.foldl processCmdN
          { st with pagesRequested := st.pagesRequested ++ [p] }).allItems.length
        = st.allItems.length →
      runPages fp (p :: rest) st
        = cmds.foldl processCmdN { st with pagesRequested := st.pagesRequested ++ [p] }) ∧
    fetch_web_ajax p0C4 fpC4 tkC4 = .ok ⟨10, itemsC4, tenupWebTag, 25⟩ ∧
    Except.map ScrapeState.pagesRequested (webScrapeRun p0C4 fpC4 tkC4) = .ok [1] := by
  refine ⟨rfl, ?_, ?_, ?_, ?_, ?_, ?_⟩
  · intro p0 fp tk st h p hp
    cases p0 with
    | httpError msg => exact absurd h (by simp [webScrapeRun])
    | parseFail =>
      simp only [webScrapeRun, Except.ok.injEq] at h
      rw [← h] at hp
      rcases runPages_pages_mem fp _ _ p hp with h1 | h1
      · exact absurd h1 (by simp)
      · exact h1
    | ok cmds =>
      simp only [webScrapeRun, Except.ok.injEq] at h
      rw [← h] at hp
      rcases runPages_pages_mem fp _ _ p hp with h1 | h1
      · rw [foldl_processCmd0_pages] at h1
        exact absurd h1 (by simp)
      · exact h1
  · intro fp l st h
    exact runPages_stop fp l st h
  · intro fp p rest st h1 h2
    simp only [runPages]
    rw [if_neg h1]
    simp only [h2]
  · intro fp p rest st cmds h1 h2 h3
    simp only [runPages]
    rw [if_neg h1]
    simp only [h2]
    rw [if_pos h3]
  · rfl
  · rfl

/-- C4 witness: the stop and partial-result clauses at concrete states. -/
theorem pagination_cap_and_stop_witness :
    runPages fpNone [5] stStop = stStop ∧
    runPages fpNone [5] stShort
      = { stShort with pagesRequested := stShort.pagesRequested ++ [5] } :=
  ⟨pagination_cap_and_stop.2.2.1 fpNone [5] stStop (by decide),
   pagination_cap_and_stop.2.2.2.1 fpNone 5 [] stShort (by decide) rfl⟩

/-- C5 (counterexample): an item bearing neither `originalId` nor `id`
is not kept: with page 0 delivering only the keyless item (reported
total 1), the scraper returns an empty collection — the item was
discarded, contradicting the claim that unmergeable items are kept. -/
theorem keyless_item_discarded :
    itemKey itemNoIdC5 = "" ∧
    fetch_web_ajax p0C5 fpNone tkC4 = .ok ⟨0, [], tenupWebTag, 1⟩ :=
  ⟨rfl, rfl⟩

/-- C5 (amended): the identity key is `originalId` when truthy, else
`id` when truthy; across all pages two items with the same identity key
yield exactly one stored entry (the stored keys are pairwise distinct);
but an item whose both fields are missing or empty is skipped entirely
(neither deduplicated nor kept). -/
theorem dedup_identity_key :
    (∀ st it, itemKey it = "" → dedupStep st it = st) ∧
    (∀ (it : Item) s, it.originalId = some s → s ≠ "" → itemKey it = s) ∧
    (∀ (it : Item) s, truthyStr it.originalId = false → it.id = some s → s ≠ "" →
      itemKey it = s) ∧
    (∀ p0 fp tk st, webScrapeRun p0 fp tk = .ok st →
      (st.allItems.map itemKey).Nodup ∧ ∀ it ∈ st.allItems, itemKey it ≠ "") := by
  refine ⟨?_, ?_, ?_, ?_⟩
  · intro st it h
    unfold dedupStep
    rw [if_neg]
    intro hc
    exact hc.1 h
  · intro it s h hs
    simp [itemKey, pyOrStr, truthyStr, h, hs]
  · intro it s h1 h2 hs
    unfold itemKey pyOrStr
    rw [h1, h2]
    simp [truthyStr, hs]
  · intro p0 fp tk st h
    obtain ⟨hnd, hiff, hne⟩ := keyInv_webScrapeRun p0 fp tk st h
    refine ⟨hnd, ?_⟩
    intro it hit hkey
    exact hne ((hiff "").mpr (List.mem_map.mpr ⟨it, hit, hkey⟩))

/-- C5 witness: the skip clause and the distinct-keys clause at concrete
inputs. -/
theorem dedup_identity_key_witness :
    dedupStep stStop itemNoIdC5 = stStop ∧
    (((⟨[], [], 1, tkC4, [1]⟩ : ScrapeState).allItems.map itemKey)).Nodup :=
  ⟨dedup_identity_key.1 stStop itemNoIdC5 rfl,
   (dedup_identity_key.2.2.2 p0C5 fpNone tkC4 ⟨[], [], 1, tkC4, [1]⟩ rfl).1⟩

/-- C10: an HTTP-successful page-0 body that cannot be parsed (or that
contains no results-update directive) does not raise: the web fetch
returns a successful empty result (count 0, no items, total_api 0)
without requesting any further page, and the route treats it as a
success, caching it; only a non-2xx page-0 status propagates as an
error. -/
theorem page0_unparseable_empty_success :
    (∀ fp tk, fetch_web_ajax .parseFail fp tk = .ok ⟨0, [], tenupWebTag, 0⟩) ∧
    (∀ fp tk, Except.map ScrapeState.pagesRequested (webScrapeRun .parseFail fp tk)
      = .ok []) ∧
    (∀ fp tk cmds, (∀ c ∈ cmds, isResultsUpdate c = false) →
      fetch_web_ajax (.ok cmds) fp tk = .ok ⟨0, [], tenupWebTag, 0⟩) ∧
    (∀ fp tk msg, fetch_web_ajax (.httpError msg) fp tk = .error msg) ∧
    (∀ cache (now : ℚ) query env fp tk, env.tokenData = none →
      truthyStr env.cookieHeader = true →
      env.webFetch1 = fetch_web_ajax .parseFail fp tk →
      cacheLookup cache (cache_key query) = none →
      (search_tenup cache now query env).1 = .ok ⟨0, [], tenupWebTag, some 0⟩ ∧
      cacheLookup (search_tenup cache now query env).2.1 (cache_key query)
        = some (⟨0, [], tenupWebTag, some 0⟩, now + CACHE_TTL)) := by
  have hbase : ∀ fp tk, fetch_web_ajax Page0Resp.parseFail fp tk
      = .ok ⟨0, [], tenupWebTag, 0⟩ := by
    intro fp tk
    simp only [fetch_web_ajax, webScrapeRun]
    rw [runPages_stop fp (List.range' 1 9) ⟨[], [], 0, tk, []⟩ (le_refl 0)]
    rfl
  refine ⟨hbase, ?_, ?_, ?_, ?_⟩
  · intro fp tk
    simp only [webScrapeRun]
    rw [runPages_stop fp (List.range' 1 9) ⟨[], [], 0, tk, []⟩ (le_refl 0)]
    rfl
  · intro fp tk cmds h
    obtain ⟨h1, h2, h3⟩ := foldl_processCmd0_noUpdate cmds ⟨[], [], 0, tk, []⟩ h
    have hstop : runPages fp (List.range' 1 9) (cmds.foldl processCmd0 ⟨[], [], 0, tk, []⟩)
        = cmds.foldl processCmd0 ⟨[], [], 0, tk, []⟩ := by
      apply runPages_stop
      rw [h2, h3]
      exact Nat.le_refl 0
    simp only [fetch_web_ajax, webScrapeRun, hstop, Except.map]
    simp [h1, h3]
  · intro fp tk msg
    rfl
  · intro cache now query env fp tk h1 h2 h3 h4
    have hw : env.webFetch1 = .ok ⟨0, [], tenupWebTag, 0⟩ := h3.trans (hbase fp tk)
    have hps : perform_search env = (.ok ⟨0, [], tenupWebTag, some 0⟩, [Ev.webFetch]) := by
      simp only [perform_search, h1, webTier, h2, if_true, hw]
      rfl
    unfold search_tenup
    simp only [cache_get_of_lookup_none cache (cache_key query) now h4, hps]
    refine ⟨by simp, ?_⟩
    simp [cacheLookup_cache_put]

/-- C10 witness: the cached empty success at a concrete route call. -/
theorem page0_unparseable_empty_success_witness :
    (search_tenup [] 0 qBase envC10).1 = .ok ⟨0, [], tenupWebTag, some 0⟩ ∧
    cacheLookup (search_tenup [] 0 qBase envC10).2.1 (cache_key qBase)
      = some (⟨0, [], tenupWebTag, some 0⟩, 0 + CACHE_TTL) :=
  page0_unparseable_empty_success.2.2.2.2 [] 0 qBase envC10 fpNone tkC4 rfl rfl rfl rfl

/-- C1: with a stored bundle whose mobile fetch fails Unauthorized and a
truthy refresh token, the orchestrator performs exactly one
refresh-persist-retry cycle — trace `[fetch, refresh, persist, fetch]` —
returning the retried result tagged `mobile_api`, which the route then
writes into the cache; if the refresh or the retried fetch fails it falls
through to the web tier, whose trace never contains another mobile fetch,
refresh, or persist. -/
theorem mobile_refresh_retry_once (env : Env) (td : TokenData)
    (h1 : env.tokenData = some td) (h2 : truthyStr td.access_token = true)
    (h3 : env.mobileFetch1 = .unauthorized) (h4 : truthyStr td.refresh_token = true) :
    (∀ tok items, env.refreshResult = some tok → env.mobileFetch2 = .ok items →
      perform_search env = (.ok (mobileResult items),
        [.mobileFetch, .refreshTok, .saveToken, .mobileFetch])) ∧
    (env.refreshResult = none →
      perform_search env
        = ((webTier env).1, [.mobileFetch, .refreshTok] ++ (webTier env).2)) ∧
    (∀ tok, env.refreshResult = some tok →
      (env.mobileFetch2 = .unauthorized ∨ ∃ m, env.mobileFetch2 = .otherError m) →
      perform_search env = ((webTier env).1,
        [.mobileFetch, .refreshTok, .saveToken, .mobileFetch] ++ (webTier env).2)) ∧
    (∀ e : Env, Ev.mobileFetch ∉ (webTier e).2 ∧ Ev.refreshTok ∉ (webTier e).2 ∧
      Ev.saveToken ∉ (webTier e).2) ∧
    (∀ cache (now : ℚ) query tok items, env.refreshResult = some tok →
      env.mobileFetch2 = .ok items → cacheLookup cache (cache_key query) = none →
      (search_tenup cache now query env).1 = .ok (mobileResult items) ∧
      cacheLookup (search_tenup cache now query env).2.1 (cache_key query)
        = some (mobileResult items, now + CACHE_TTL)) := by
  refine ⟨?_, ?_, ?_, webTier_events, ?_⟩
  · intro tok items hr hm2
    simp only [perform_search, h1, h2, if_true, h3, h4, hr, hm2]
  · intro hr
    simp only [perform_search, h1, h2, if_true, h3, h4, hr]
  · intro tok hr hd
    rcases hd with hm2 | ⟨m, hm2⟩ <;>
      simp only [perform_search, h1, h2, if_true, h3, h4, hr, hm2]
  · intro cache now query tok items hr hm2 hlk
    have hps : perform_search env = (.ok (mobileResult items),
        [.mobileFetch, .refreshTok, .saveToken, .mobileFetch]) := by
      simp only [perform_search, h1, h2, if_true, h3, h4, hr, hm2]
    unfold search_tenup
    simp only [cache_get_of_lookup_none cache (cache_key query) now hlk, hps]
    refine ⟨by simp, ?_⟩
    simp [cacheLookup_cache_put]

/-- C1 witness: the refresh-retry scenario at a concrete oracle, with the
result written to the cache. -/
theorem mobile_refresh_retry_once_witness :
    perform_search envC1 = (.ok (mobileResult [itW]),
      [.mobileFetch, .refreshTok, .saveToken, .mobileFetch]) ∧
    (search_tenup [] 0 qBase envC1).1 = .ok (mobileResult [itW]) ∧
    cacheLookup (search_tenup [] 0 qBase envC1).2.1 (cache_key qBase)
      = some (mobileResult [itW], 0 + CACHE_TTL) :=
  ⟨(mobile_refresh_retry_once envC1 tdC1 rfl rfl rfl rfl).1 tdC1b [itW] rfl rfl,
   ((mobile_refresh_retry_once envC1 tdC1 rfl rfl rfl rfl).2.2.2.2
      [] 0 qBase tdC1b [itW] rfl rfl rfl).1,
   ((mobile_refresh_retry_once envC1 tdC1 rfl rfl rfl rfl).2.2.2.2
      [] 0 qBase tdC1b [itW] rfl rfl rfl).2⟩

/-- C2 (counterexample): the web fetch fails with the bot-wall error of a
resolved anti-bot page ("Queue-it page detected"), a headless refresh is
available and would succeed, yet the orchestrator surfaces HTTP 500
directly with no headless attempt: only the "Queue-it redirection
detected" message triggers the headless tier, refuting the claim that
both bot-wall variants do. -/
theorem botwall_page_no_headless :
    perform_search envC2 = (.error ⟨500, webErrTag ++ queuePageMsg⟩, [Ev.webFetch]) ∧
    Ev.headless ∉ (perform_search envC2).2 ∧
    envC2.headlessResult = .ok ("hdr") := by
  refine ⟨rfl, ?_, rfl⟩
  decide

/-- C2 (amended): in the web tier, only a failure whose text contains
"Queue-it redirection detected" (the bot-wall raised on a redirect to the
queuing host) triggers the headless refresh, exactly once, followed by
exactly one retried web fetch (success or 500, never looping); every
other web-tier failure — including the bot-wall reported by the resolved
page itself — surfaces HTTP 500 with no headless attempt. -/
theorem botwall_redirect_single_headless_retry (env : Env)
    (hc : truthyStr env.cookieHeader = true) :
    (∀ r, env.webFetch1 = .ok r → webTier env = (.ok (webToSearch r), [.webFetch])) ∧
    (∀ m hdr r2, env.webFetch1 = .error m → strContains m queueitRedirNeedle = true →
      env.headlessResult = .ok hdr → env.webFetch2 = .ok r2 →
      webTier env = (.ok (webToSearch r2), [.webFetch, .headless, .webFetch])) ∧
    (∀ m hdr m2, env.webFetch1 = .error m → strContains m queueitRedirNeedle = true →
      env.headlessResult = .ok hdr → env.webFetch2 = .error m2 →
      webTier env = (.error ⟨500, webErrTag ++ m2⟩, [.webFetch, .headless, .webFetch])) ∧
    (∀ m m2, env.webFetch1 = .error m → strContains m queueitRedirNeedle = true →
      env.headlessResult = .error m2 →
      webTier env = (.error ⟨500, webErrTag ++ m2⟩, [.webFetch, .headless])) ∧
    (∀ m, env.webFetch1 = .error m → strContains m queueitRedirNeedle = false →
      webTier env = (.error ⟨500, webErrTag ++ m⟩, [.webFetch])) := by
  refine ⟨?_, ?_, ?_, ?_, ?_⟩
  · intro r hw
    simp only [webTier, hc, if_true, hw]
  · intro m hdr r2 hw hs hh h2
    simp only [webTier, hc, if_true, hw, hs, hh, h2]
  · intro m hdr m2 hw hs hh h2
    simp only [webTier, hc, if_true, hw, hs, hh, h2]
  · intro m m2 hw hs hh
    simp only [webTier, hc, if_true, hw, hs, hh]
  · intro m hw hs
    simp [webTier, hc, hw, hs]

/-- C2 witness: the redirect-variant bot-wall at a concrete oracle —
headless once, web retried once, success. -/
theorem botwall_redirect_single_headless_retry_witness :
    webTier envC2w = (.ok (webToSearch emptyWeb), [.webFetch, .headless, .webFetch]) :=
  (botwall_redirect_single_headless_retry envC2w rfl).2.1
    queueRedirMsg ("hdr") emptyWeb rfl rfl rfl rfl

/-- C3 (code bug): on total exhaustion — no token bundle, no cookie
header, headless refresh failing — the orchestrator raises the dedicated
HTTP 502 composite error, but the route handler's blanket exception
wrapper converts every escaping exception, HTTPExceptions included, into
HTTP 500 carrying the stringified cause, so the caller receives 500, not
the 502 equivalent the claim prescribes. -/
theorem exhaustion_surfaces_500_not_502 :
    perform_search envC3
      = (.error ⟨502, exhaustTag ++ ("browser launch failed")⟩, [Ev.headless]) ∧
    (search_tenup [] 0 qBase envC3).1
      = .error ⟨500,
          internalErrTag ++ strHErr ⟨502, exhaustTag ++ ("browser launch failed")⟩⟩ :=
  ⟨rfl, rfl⟩

/-- C8 (counterexample): with both the persisted token file and the
environment override present and different, `load_token_file` returns the
file's bundle — the file wins, refuting the claimed
override-over-file precedence for the token bundle. -/
theorem token_file_beats_env :
    load_token_file csC8 = some tdFile ∧ tdFile ≠ tdEnv :=
  ⟨rfl, by decide⟩

/-- C8 (amended): the cookie loader honors override > file > absent, but
the token loader honors the opposite precedence, persisted file >
override > absent; each returns absent only when no origin yields a
value. -/
theorem credential_precedence :
    (∀ s t, s.tokenFile = some (some t) → load_token_file s = some t) ∧
    (∀ s t, s.tokenFile = none ∨ s.tokenFile = some none →
      s.envToken = some (some t) → load_token_file s = some t) ∧
    (∀ s, (s.tokenFile = none ∨ s.tokenFile = some none) →
      (s.envToken = none ∨ s.envToken = some none) → load_token_file s = none) ∧
    (∀ s c, s.envCookie = some c → c ≠ "" →
      load_cookie_header s = some (processEnvCookie c)) ∧
    (∀ s, s.envCookie = none ∨ s.envCookie = some "" →
      load_cookie_header s = loadCookieFiles s) ∧
    (∀ s, (s.envCookie = none ∨ s.envCookie = some "") → s.cookieFile = none →
      s.cookieFileAlt = none → load_cookie_header s = none) := by
  refine ⟨?_, ?_, ?_, ?_, ?_, ?_⟩
  · intro s t h
    simp only [load_token_file, h]
  · intro s t h he
    rcases h with h | h <;> simp only [load_token_file, h, he]
  · intro s h he
    rcases h with h | h <;> rcases he with he | he <;> simp only [load_token_file, h, he]
  · intro s c h hc
    simp only [load_cookie_header, h]
    rw [if_pos hc]
  · intro s h
    rcases h with h | h <;> simp [load_cookie_header, h]
  · intro s h h1 h2
    rcases h with h | h <;> simp [load_cookie_header, loadCookieFiles, h, h1, h2]

/-- C8 witness: file-first token precedence and override-first cookie
precedence at concrete credential states. -/
theorem credential_precedence_witness :
    load_token_file csC8 = some tdFile ∧
    load_cookie_header csC8b = some (processEnvCookie ("envck=1")) :=
  ⟨credential_precedence.1 csC8 tdFile rfl,
   credential_precedence.2.2.2.1 csC8b ("envck=1") rfl (by decide)⟩

/-- C9 (code bug): the confirmation page contains the plain client-side
redirect pattern (`decodeURIComponent('<encoded-path>')` with the
`cookietest` marker), but the regex — written with doubled backslashes
inside a raw string — demands a literal backslash-quote after
`decodeURIComponent`, so it never matches the plain pattern: the
negotiator neither sets the confirmation cookie nor follows the path and,
after its five iterations, fails with the NegotiationFailed snippet
error.  On text that does carry literal backslashes the match yields the
quotes-and-backslash-wrapped group, not the bare encoded path. -/
theorem c9_decode_marker : strContains c9Html decodeMarker = true := rfl

theorem c9_cookietest_marker : strContains c9Html cookietestMarker = true := rfl

theorem c9_redir_none : findRedir c9Html = none := rfl

theorem c9_fb_none : extractFormBuildId c9Html = none := rfl

theorem c9_tt_none : extractThemeToken c9Html = none := rfl

theorem c9_noqueue : strContains (TENUP_BASE ++ SEARCH_PATH) queueitHost = false := rfl

theorem c9_step (fuel i : Nat) (st : NegoState) (hurl : st.url = TENUP_BASE ++ SEARCH_PATH) :
    get_form_state_loop c9Fetch (fuel + 1) i st
      = get_form_state_loop c9Fetch fuel (i + 1) { st with lastHtml := c9Html } := by
  simp [get_form_state_loop, c9Fetch, hurl, c9_noqueue, c9_decode_marker,
    c9_cookietest_marker, c9_redir_none, c9_fb_none, c9_tt_none]

theorem redirect_regex_never_matches_plain_pattern :
    strContains c9Html decodeMarker = true ∧
    strContains c9Html cookietestMarker = true ∧
    occursIn (("decodeURIComponent(" ++ sqS).toList) c9Html.toList = true ∧
    findRedir c9Html = none ∧
    get_form_state c9Fetch
      = (.error (inaccessibleTag ++ c9Html.take 300),
         ⟨TENUP_BASE ++ SEARCH_PATH, false, c9Html⟩) ∧
    findRedir bsHtml = some (sqS ++ "%2Fok" ++ sqS ++ bsS) := by
  refine ⟨rfl, rfl, rfl, rfl, ?_, rfl⟩
  unfold get_form_state
  rw [c9_step 4 0 _ rfl, c9_step 3 1 _ rfl, c9_step 2 2 _ rfl, c9_step 1 3 _ rfl,
    c9_step 0 4 _ rfl]
  simp only [get_form_state_loop]
  rw [if_neg (by decide)]

end Padelfinder
